import Mathlib

/-!
Shallow embedding of `src/plugins/safe_score_manager.py` (SafeScoreManagerPlugin).

Modelling conventions:
* Timestamps (`time.time()`, the stored `last_update` float) are modelled as `Nat`;
  the claims only compare timestamps for equality and truthiness.
* The persisted score mapping `self.score_data` is modelled as a record with the two
  optional keys the code reads and writes (`score`, `last_update`).
* `save_json` is effectful and may fail; its outcome is an explicit `persistOk : Bool`
  input to the handler.  `datetime.fromtimestamp(t).strftime(...)` is an external pure
  library call and is passed in as an abstract function `formatTime : Nat → String`.
* Replies are the literal strings the code sends.  Log calls are modelled as a list of
  `LogEntry`; the interpolated exception text (`{e}`, `repr(content)`) is abstracted
  away since no claim depends on it.
* Python exceptions are modelled by totality: every branch of the embedded handler
  returns a `HandleResult`, mirroring the fact that the `try/except` in `handle_safe`
  and `load_whitelist` converts every error into a reply/log.
-/

namespace SafeScore

/-- The in-memory `self.score_data` dict: the code only ever touches the keys
`"score"` and `"last_update"`, always both together. -/
structure ScoreData where
  score : Option Int
  last_update : Option Nat
deriving DecidableEq, Repr

/-- The empty mapping `{}` that `__init__` / `load_json`'s default produces. -/
def ScoreData.empty : ScoreData := ⟨none, none⟩

/-- A `bot_logger` call: level, message, and whether `exc_info=True` was passed. -/
inductive LogEntry where
  | info (msg : String)
  | warning (msg : String)
  | error (msg : String) (excInfo : Bool)
deriving DecidableEq, Repr

/-- The observable outcome of one `handle_safe` invocation: the new in-memory
`score_data`, the reply sent through the handler, the log entries emitted, and
whether `save_json` was reached (attempted) on this invocation. -/
structure HandleResult where
  state : ScoreData
  reply : String
  logs : List LogEntry
  saveAttempted : Bool
deriving DecidableEq, Repr

/-- What `yaml.safe_load` can hand back for the whitelist file: a list of user-id
strings, or any non-list value (mapping, scalar, `None`, ...). -/
inductive YamlValue where
  | list (xs : List String)
  | other
deriving DecidableEq, Repr

/-- The environment `load_whitelist` runs against: the file is absent (and creating
it succeeds or raises), reading/parsing it raises, or it parses to a value. -/
inductive WhitelistFileState where
  | absent (createOk : Bool)
  | unreadable
  | present (v : YamlValue)
deriving DecidableEq, Repr

/-- One scan of `re.sub(r'[^0-9]', '', content)`: every character matching the
class `[^0-9]` is replaced by the empty string, every `[0-9]` character is kept. -/
def reSubNonDigit : List Char → List Char
  | [] => []
  | c :: cs => if c.isDigit then c :: reSubNonDigit cs else reSubNonDigit cs

/-- `cleaned_content = re.sub(r'[^0-9]', '', content)`. -/
def sanitize (content : String) : String := ⟨reSubNonDigit content.data⟩

/-- Decimal value of a digit string (left fold, most significant digit first). -/
def digitsVal (l : List Char) : Nat := l.foldl (fun a c => a * 10 + (c.toNat - 48)) 0

/-- Parse a plain digit run: `none` when empty or containing a non-digit. -/
def digitsToNat (l : List Char) : Option Nat :=
  if l.isEmpty then none
  else if l.all Char.isDigit then some (digitsVal l) else none

/-- Python `int(s)` restricted to the shapes reachable here: an optional single
leading sign followed by digits; anything else raises `ValueError` (`none`).
(The whitespace/underscore liberality of CPython's `int` is irrelevant: the only
string ever parsed by the plugin is the digit-only `cleaned_content`.) -/
def pyInt (s : String) : Option Int :=
  match s.data with
  | [] => none
  | c :: rest =>
    if c = '-' then (digitsToNat rest).map (fun n => -(n : Int))
    else if c = '+' then (digitsToNat rest).map (fun n => (n : Int))
    else (digitsToNat (c :: rest)).map (fun n => (n : Int))

/-- Group a reversed digit list in threes, comma-separated (for `f"{n:,}"`). -/
def groupRev : List Char → List Char
  | [] => []
  | [a] => [a]
  | [a, b] => [a, b]
  | [a, b, c] => [a, b, c]
  | a :: b :: c :: rest => a :: b :: c :: ',' :: groupRev rest

/-- Python's `f"{n:,}"`: decimal digits grouped in threes by commas, with a
leading minus sign for negative values. -/
def formatThousands (n : Int) : String :=
  (if n < 0 then "-" else "") ++ ⟨(groupRev (Nat.repr n.natAbs).data.reverse).reverse⟩

/-- `is_authorized`: membership of `user_id` in the in-memory whitelist. -/
def is_authorized (whitelist : List String) (user_id : String) : Bool :=
  whitelist.contains user_id

/-- `get_safe_score`: pure read of the two keys from the in-memory mapping. -/
def get_safe_score (score_data : ScoreData) : Option Int × Option Nat :=
  (score_data.score, score_data.last_update)

/-- `load_whitelist`, as a function of the file-system environment and the current
in-memory whitelist; returns the new whitelist and the log entries emitted.
Totality of this function embeds "never raises to its caller". -/
def load_whitelist : WhitelistFileState → List String → List String × List LogEntry
  | .absent true, _ =>
    ([], [.info "未找到白名单文件，正在创建...",
          .info "已创建空的 config/whitelist.yaml 文件"])
  | .absent false, cur =>
    (cur, [.info "未找到白名单文件，正在创建...",
           .error "创建白名单文件失败" false])
  | .unreadable, _ =>
    ([], [.error "加载白名单文件失败" false])
  | .present (.list xs), _ =>
    (xs, [.info ("成功加载 " ++ toString xs.length ++ " 个白名单用户")])
  | .present .other, _ =>
    ([], [.warning "白名单格式不正确，应为列表。已重置为空列表",
          .info "成功加载 0 个白名单用户"])

/-- Lines 89-103 of `handle_safe`: the body of the `try` block once
`new_score = int(cleaned_content)` has produced a value.  The dict keys are
written before `save_json` runs, so on persistence failure (`persistOk = false`)
the returned state is already the updated one and the `except Exception` arm
logs with `exc_info=True` and sends the generic failure reply. -/
def setParsedScore (now : Nat) (persistOk : Bool) (user_id : String)
    (score_data : ScoreData) (new_score : Int) : HandleResult :=
  if new_score < 0 then
    { state := score_data, reply := "\n⚠️ 分数不能为负数。", logs := [],
      saveAttempted := false }
  else if persistOk then
    { state := { score := some new_score, last_update := some now },
      reply := "\n✅ 安全分已成功更新为: `" ++ formatThousands new_score ++ "`",
      logs := [.info ("用户 " ++ user_id ++ " 将安全分更新为 " ++ toString new_score)],
      saveAttempted := true }
  else
    { state := { score := some new_score, last_update := some now },
      reply := "\n⚠️ 更新安全分时发生未知错误，请稍后再试",
      logs := [.error "更新安全分时出错" true],
      saveAttempted := true }

/-- `handle_safe`: one invocation of the `/safe` command.  Inputs beyond the raw
`(user_id, content)` pair are the ambient effects the code consumes: the current
whitelist and score mapping, the clock (`now`), the outcome of `save_json`
(`persistOk`) and the timestamp formatter (`formatTime`). -/
def handle_safe (formatTime : Nat → String) (now : Nat) (persistOk : Bool)
    (whitelist : List String) (score_data : ScoreData)
    (user_id content : String) : HandleResult :=
  if content = "" then
    match score_data.score with
    | some score =>
      { state := score_data,
        reply := "\n🛡️ 当前安全分为: `" ++ formatThousands score
          ++ "`\n🕒 最后更新时间: "
          ++ (match score_data.last_update with
              | some t => if t = 0 then "未知" else formatTime t
              | none => "未知"),
        logs := [], saveAttempted := false }
    | none =>
      { state := score_data, reply := "\nℹ️ 当前尚未设置安全分。",
        logs := [], saveAttempted := false }
  else if is_authorized whitelist user_id then
    if sanitize content = "" then
      { state := score_data, reply := "\n⚠️ 无效的输入，未检测到任何数字",
        logs := [.info ("Received content for /safe: '" ++ content ++ "'"),
                 .info ("Cleaned content: '" ++ sanitize content ++ "'")],
        saveAttempted := false }
    else
      match pyInt (sanitize content) with
      | none =>
        { state := score_data,
          reply := "\n⚠️ 无效的输入，请输入一个有效的数字作为分数",
          logs := [.info ("Received content for /safe: '" ++ content ++ "'"),
                   .info ("Cleaned content: '" ++ sanitize content ++ "'")],
          saveAttempted := false }
      | some new_score =>
        { setParsedScore now persistOk user_id score_data new_score with
          logs := [.info ("Received content for /safe: '" ++ content ++ "'"),
                   .info ("Cleaned content: '" ++ sanitize content ++ "'")] ++
            (setParsedScore now persistOk user_id score_data new_score).logs }
  else
    { state := score_data, reply := "\n⚠️ 你没有权限执行此操作",
      logs := [.warning ("用户 " ++ user_id ++ " 尝试设置安全分但无权限")],
      saveAttempted := false }


/-! ### Helper lemmas shared by the claim theorems -/

theorem reSub_eq_filter (l : List Char) : reSubNonDigit l = l.filter Char.isDigit := by
  induction l with
  | nil => rfl
  | cons c cs ih => simp only [reSubNonDigit, List.filter_cons, ih]

theorem sanitize_data (s : String) : (sanitize s).data = s.data.filter Char.isDigit := by
  simp [sanitize, reSub_eq_filter]

theorem sanitize_all_digits (s : String) : ∀ c ∈ (sanitize s).data, c.isDigit = true := by
  intro c hc
  rw [sanitize_data] at hc
  exact (List.mem_filter.mp hc).2

theorem pyInt_all_digits (l : List Char) (h1 : l ≠ [])
    (h2 : ∀ c ∈ l, c.isDigit = true) :
    pyInt ⟨l⟩ = some ((digitsVal l : Nat) : Int) := by
  match l with
  | [] => exact absurd rfl h1
  | c :: rest =>
    have hd : c.isDigit = true := h2 c (List.mem_cons_self c rest)
    have hneg : c ≠ '-' := by rintro rfl; simp [Char.isDigit] at hd
    have hpos : c ≠ '+' := by rintro rfl; simp [Char.isDigit] at hd
    have hstep : pyInt ⟨c :: rest⟩ =
        (if c = '-' then (digitsToNat rest).map (fun n => -(n : Int))
         else if c = '+' then (digitsToNat rest).map (fun n => (n : Int))
         else (digitsToNat (c :: rest)).map (fun n => (n : Int))) := rfl
    have hall : (c :: rest).all Char.isDigit = true := List.all_eq_true.mpr h2
    rw [hstep, if_neg hneg, if_neg hpos]
    simp [digitsToNat, hall]

theorem sanitize_ne_nil {s : String} (h : sanitize s ≠ "") : (sanitize s).data ≠ [] := by
  intro hc
  exact h (by cases hmk : sanitize s with | _ d => simpa [hmk] using congrArg String.mk hc)

theorem pyInt_sanitize (s : String) (h : sanitize s ≠ "") :
    pyInt (sanitize s) = some ((digitsVal (sanitize s).data : Nat) : Int) := by
  have := pyInt_all_digits (sanitize s).data (sanitize_ne_nil h) (sanitize_all_digits s)
  simpa using this

theorem handle_safe_write (formatTime : Nat → String) (now : Nat) (persistOk : Bool)
    (whitelist : List String) (score_data : ScoreData) (user_id content : String)
    (hc : content ≠ "") (ha : is_authorized whitelist user_id = true)
    (hs : sanitize content ≠ "") :
    handle_safe formatTime now persistOk whitelist score_data user_id content =
      { setParsedScore now persistOk user_id score_data
          ((digitsVal (sanitize content).data : Nat) : Int) with
        logs :=
          [.info ("Received content for /safe: '" ++ content ++ "'"),
           .info ("Cleaned content: '" ++ sanitize content ++ "'")] ++
          (setParsedScore now persistOk user_id score_data
            ((digitsVal (sanitize content).data : Nat) : Int)).logs } := by
  unfold handle_safe
  rw [if_neg hc, if_pos ha, if_neg hs, pyInt_sanitize content hs]

theorem setParsedScore_nonneg (now : Nat) (persistOk : Bool) (user_id : String)
    (score_data : ScoreData) (n : Nat) :
    setParsedScore now persistOk user_id score_data (n : Int) =
      (if persistOk then
        { state := ⟨some (n : Int), some now⟩,
          reply := "\n✅ 安全分已成功更新为: `" ++ formatThousands (n : Int) ++ "`",
          logs := [.info ("用户 " ++ user_id ++ " 将安全分更新为 " ++ toString (n : Int))],
          saveAttempted := true }
      else
        { state := ⟨some (n : Int), some now⟩,
          reply := "\n⚠️ 更新安全分时发生未知错误，请稍后再试",
          logs := [.error "更新安全分时出错" true],
          saveAttempted := true }) := by
  unfold setParsedScore
  rw [if_neg (not_lt.mpr (Int.natCast_nonneg n))]

theorem ne_of_take_two {p x m : String}
    (h : p.data.take 2 ≠ m.data.take 2) (hp : 2 ≤ p.data.length) : p ++ x ≠ m := by
  intro he
  apply h
  rw [← he, String.data_append, List.take_append_of_le_length hp]

theorem handle_safe_state_cases (ft : Nat → String) (now : Nat) (p : Bool)
    (wl : List String) (d : ScoreData) (u content : String) :
    (handle_safe ft now p wl d u content).state = d ∨
    ∃ n : Nat, (handle_safe ft now p wl d u content).state = ⟨some (n : Int), some now⟩ := by
  unfold handle_safe setParsedScore
  split
  · split <;> exact Or.inl rfl
  · split
    · split
      · exact Or.inl rfl
      · split
        · exact Or.inl rfl
        · split
          · exact Or.inl rfl
          · split
            · rename_i x n heq hnn hp
              exact Or.inr ⟨n.toNat, by
                simp [Int.toNat_of_nonneg (not_lt.mp hnn)]⟩
            · rename_i x n heq hnn hp
              exact Or.inr ⟨n.toNat, by
                simp [Int.toNat_of_nonneg (not_lt.mp hnn)]⟩
    · exact Or.inl rfl

/-- The invariant on the in-memory score record: a stored score is a non-negative
integer, and `score` and `last_update` are present together or absent together. -/
def ScoreInvariant (d : ScoreData) : Prop :=
  (∀ n : Int, d.score = some n → 0 ≤ n) ∧ (d.score.isSome ↔ d.last_update.isSome)

/-! ### Claim theorems -/

/-- C1: for every non-negative integer N, if an authorized user issues the set
command with an argument whose sanitized digit string parses to N and persistence
succeeds, then the stored record — and hence a subsequent `get_safe_score` read —
holds score N together with the timestamp captured during that set call, and the
confirmation reply reports N with thousands separators. -/
theorem set_then_read_returns_value (ft : Nat → String) (now : Nat)
    (wl : List String) (d : ScoreData) (u content : String) (N : Nat)
    (ha : is_authorized wl u = true) (hc : content ≠ "") (hs : sanitize content ≠ "")
    (hN : pyInt (sanitize content) = some (N : Int)) :
    (handle_safe ft now true wl d u content).state = ⟨some (N : Int), some now⟩ ∧
    get_safe_score (handle_safe ft now true wl d u content).state =
      (some (N : Int), some now) ∧
    (handle_safe ft now true wl d u content).reply =
      "\n✅ 安全分已成功更新为: `" ++ formatThousands (N : Int) ++ "`" := by
  have hdv : ((digitsVal (sanitize content).data : Nat) : Int) = (N : Int) := by
    have h1 := pyInt_sanitize content hs
    rw [hN] at h1
    exact (Option.some_inj.mp h1).symm
  rw [handle_safe_write ft now true wl d u content hc ha hs, hdv, setParsedScore_nonneg]
  simp [get_safe_score]

theorem set_then_read_returns_value_witness :
    (handle_safe (fun _ => "") 5 true ["admin"] ScoreData.empty "admin"
      "sc:1,234pts!!").state = ⟨some ((1234 : Nat) : Int), some 5⟩ ∧
    get_safe_score (handle_safe (fun _ => "") 5 true ["admin"] ScoreData.empty "admin"
      "sc:1,234pts!!").state = (some ((1234 : Nat) : Int), some 5) ∧
    (handle_safe (fun _ => "") 5 true ["admin"] ScoreData.empty "admin"
      "sc:1,234pts!!").reply =
      "\n✅ 安全分已成功更新为: `" ++ formatThousands ((1234 : Nat) : Int) ++ "`" :=
  set_then_read_returns_value (fun _ => "") 5 ["admin"] ScoreData.empty "admin"
    "sc:1,234pts!!" 1234 (by decide) (by decide) (by decide) (by decide)

/-- C2: a write attempt (non-empty argument) by a caller outside the whitelist is
answered with the permission-denied reply, logs a denial warning, and leaves the
in-memory score record byte-for-byte unchanged with no persistence attempt. -/
theorem unauthorized_write_rejected (ft : Nat → String) (now : Nat) (p : Bool)
    (wl : List String) (d : ScoreData) (u content : String)
    (hc : content ≠ "") (ha : is_authorized wl u = false) :
    handle_safe ft now p wl d u content =
      { state := d, reply := "\n⚠️ 你没有权限执行此操作",
        logs := [.warning ("用户 " ++ u ++ " 尝试设置安全分但无权限")],
        saveAttempted := false } := by
  unfold handle_safe
  rw [if_neg hc, if_neg (by simp [ha])]

theorem unauthorized_write_rejected_witness :
    handle_safe (fun _ => "") 5 true [] ⟨some 10, some 1⟩ "x" "123" =
      { state := ⟨some 10, some 1⟩, reply := "\n⚠️ 你没有权限执行此操作",
        logs := [.warning ("用户 " ++ "x" ++ " 尝试设置安全分但无权限")],
        saveAttempted := false } :=
  unauthorized_write_rejected (fun _ => "") 5 true [] ⟨some 10, some 1⟩ "x" "123"
    (by decide) (by decide)

/-- C3: sanitization returns exactly the subsequence of ASCII digit characters of
the input in order (it equals the digit filter and is a sublist of the input),
leaves pure-digit strings unchanged, is idempotent, and maps "sc:1,234pts!!"
to "1234". -/
theorem sanitize_extracts_digit_subsequence :
    (∀ s : String, (sanitize s).data = s.data.filter Char.isDigit) ∧
    (∀ s : String, (sanitize s).data.Sublist s.data) ∧
    (∀ s : String, (∀ c ∈ s.data, c.isDigit = true) → sanitize s = s) ∧
    (∀ s : String, sanitize (sanitize s) = sanitize s) ∧
    sanitize "sc:1,234pts!!" = "1234" := by
  have h2 : ∀ s : String, (∀ c ∈ s.data, c.isDigit = true) → sanitize s = s := by
    intro s h
    apply String.ext
    rw [sanitize_data, List.filter_eq_self.mpr h]
  refine ⟨sanitize_data, ?_, h2, fun s => h2 _ (sanitize_all_digits s), by decide⟩
  intro s
  rw [sanitize_data]
  exact List.filter_sublist s.data

theorem sanitize_extracts_digit_subsequence_witness : sanitize "1234" = "1234" :=
  sanitize_extracts_digit_subsequence.2.2.1 "1234" (by decide)

/-- C4: the negative-score guard replies "分数不能为负数" and leaves the record
unchanged when it ever sees a negative parsed value, every non-empty sanitized
digit string parses to a non-negative integer, and consequently no invocation of
the command handler can ever produce the negative-score reply. -/
theorem negative_score_branch_unreachable :
    (∀ (now : Nat) (persistOk : Bool) (user_id : String) (score_data : ScoreData)
      (n : Int), n < 0 →
      setParsedScore now persistOk user_id score_data n =
        { state := score_data, reply := "\n⚠️ 分数不能为负数。", logs := [],
          saveAttempted := false }) ∧
    (∀ content : String, sanitize content ≠ "" →
      ∃ m : Nat, pyInt (sanitize content) = some (m : Int) ∧ (0 : Int) ≤ (m : Int)) ∧
    (∀ (ft : Nat → String) (now : Nat) (p : Bool) (wl : List String) (d : ScoreData)
      (u content : String),
      (handle_safe ft now p wl d u content).reply ≠ "\n⚠️ 分数不能为负数。") := by
  refine ⟨?_, ?_, ?_⟩
  · intro now persistOk user_id score_data n hn
    unfold setParsedScore
    rw [if_pos hn]
  · intro content hs
    exact ⟨digitsVal (sanitize content).data, pyInt_sanitize content hs,
      Int.natCast_nonneg _⟩
  · intro ft now p wl d u content
    unfold handle_safe
    split
    · split
      · rw [String.append_assoc, String.append_assoc]
        exact ne_of_take_two (by decide) (by decide)
      · dsimp only; decide
    · split
      · split
        · dsimp only; decide
        · split
          · dsimp only; decide
          · rename_i hauth hs x n heq
            have hn0 : (0 : Int) ≤ n := by
              rw [pyInt_sanitize content hs] at heq
              rw [← Option.some_inj.mp heq]
              exact Int.natCast_nonneg _
            show (setParsedScore now p u d n).reply ≠ _
            unfold setParsedScore
            rw [if_neg (not_lt.mpr hn0)]
            split
            · rw [String.append_assoc]
              exact ne_of_take_two (by decide) (by decide)
            · dsimp only; decide
      · dsimp only; decide

theorem negative_score_branch_unreachable_witness :
    setParsedScore 5 true "admin" ScoreData.empty (-1) =
      { state := ScoreData.empty, reply := "\n⚠️ 分数不能为负数。", logs := [],
        saveAttempted := false } ∧
    (∃ m : Nat, pyInt (sanitize "a1") = some (m : Int) ∧ (0 : Int) ≤ (m : Int)) ∧
    (handle_safe (fun _ => "") 5 true ["admin"] ScoreData.empty "admin" "99").reply ≠
      "\n⚠️ 分数不能为负数。" :=
  ⟨negative_score_branch_unreachable.1 5 true "admin" ScoreData.empty (-1) (by decide),
   negative_score_branch_unreachable.2.1 "a1" (by decide),
   negative_score_branch_unreachable.2.2 (fun _ => "") 5 true ["admin"]
     ScoreData.empty "admin" "99"⟩

/-- C5: starting from the empty score mapping, every invocation of the command
handler preserves the record invariant: a stored score is non-negative, and
`score` and `last_update` are always written together. -/
theorem score_record_invariant_preserved :
    ScoreInvariant ScoreData.empty ∧
    ∀ (ft : Nat → String) (now : Nat) (p : Bool) (wl : List String) (d : ScoreData)
      (u content : String), ScoreInvariant d →
      ScoreInvariant (handle_safe ft now p wl d u content).state := by
  constructor
  · exact ⟨fun n h => by simp [ScoreData.empty] at h, by simp [ScoreData.empty]⟩
  · intro ft now p wl d u content hInv
    rcases handle_safe_state_cases ft now p wl d u content with h | ⟨n, h⟩
    · rw [h]; exact hInv
    · rw [h]
      refine ⟨fun m hm => ?_, by simp⟩
      simp only [Option.some_inj] at hm
      rw [← hm]
      exact Int.natCast_nonneg n

theorem score_record_invariant_preserved_witness :
    ScoreInvariant (handle_safe (fun _ => "") 5 true [] ScoreData.empty "u" "42").state :=
  score_record_invariant_preserved.2 (fun _ => "") 5 true [] ScoreData.empty "u" "42"
    score_record_invariant_preserved.1

/-- C6: an authorized caller sending a non-empty argument with no ASCII digit is
answered with the "no number found" reply before any commit: the score record is
unchanged and no persistence is attempted. -/
theorem no_digits_input_rejected (ft : Nat → String) (now : Nat) (p : Bool)
    (wl : List String) (d : ScoreData) (u content : String)
    (hc : content ≠ "") (ha : is_authorized wl u = true) (hs : sanitize content = "") :
    handle_safe ft now p wl d u content =
      { state := d, reply := "\n⚠️ 无效的输入，未检测到任何数字",
        logs := [.info ("Received content for /safe: '" ++ content ++ "'"),
                 .info "Cleaned content: ''"],
        saveAttempted := false } := by
  unfold handle_safe
  rw [if_neg hc, if_pos ha, if_pos hs, hs]
  rfl

theorem no_digits_input_rejected_witness :
    handle_safe (fun _ => "") 5 true ["admin"] ScoreData.empty "admin" "abc" =
      { state := ScoreData.empty, reply := "\n⚠️ 无效的输入，未检测到任何数字",
        logs := [.info ("Received content for /safe: '" ++ "abc" ++ "'"),
                 .info "Cleaned content: ''"],
        saveAttempted := false } :=
  no_digits_input_rejected (fun _ => "") 5 true ["admin"] ScoreData.empty "admin" "abc"
    (by decide) (by decide) (by decide)

/-- C7: an empty argument always takes the read path, for any caller and with no
authorization check: the state is untouched and nothing persisted or logged; if a
score is set the reply carries it with thousands separators plus a timestamp
string derived from `last_update`, otherwise the reply says no score is
configured; and the result is identical for any whitelist and any caller. -/
theorem empty_argument_read_path (ft : Nat → String) (now : Nat) (p : Bool)
    (wl : List String) (d : ScoreData) (u : String) :
    ((handle_safe ft now p wl d u "").state = d ∧
     (handle_safe ft now p wl d u "").saveAttempted = false ∧
     (handle_safe ft now p wl d u "").logs = []) ∧
    (d.score = none →
      (handle_safe ft now p wl d u "").reply = "\nℹ️ 当前尚未设置安全分。") ∧
    (∀ s : Int, d.score = some s →
      (handle_safe ft now p wl d u "").reply =
        "\n🛡️ 当前安全分为: `" ++ formatThousands s ++ "`\n🕒 最后更新时间: "
          ++ (match d.last_update with
              | some t => if t = 0 then "未知" else ft t
              | none => "未知")) ∧
    (∀ (wl2 : List String) (u2 : String),
      handle_safe ft now p wl d u "" = handle_safe ft now p wl2 d u2 "") := by
  refine ⟨⟨?_, ?_, ?_⟩, ?_, ?_, ?_⟩
  · cases hd : d.score <;> simp [handle_safe, hd]
  · cases hd : d.score <;> simp [handle_safe, hd]
  · cases hd : d.score <;> simp [handle_safe, hd]
  · intro hd; simp [handle_safe, hd]
  · intro s hd; simp [handle_safe, hd]
  · intro wl2 u2; cases hd : d.score <;> simp [handle_safe, hd]

theorem empty_argument_read_path_witness :
    (handle_safe (fun _ => "T") 9 true [] ScoreData.empty "u" "").reply =
      "\nℹ️ 当前尚未设置安全分。" ∧
    (handle_safe (fun _ => "T") 9 true [] ⟨some 7, some 3⟩ "u" "").reply =
      "\n🛡️ 当前安全分为: `7`\n🕒 最后更新时间: T" := by
  constructor
  · exact (empty_argument_read_path (fun _ => "T") 9 true [] ScoreData.empty "u").2.1 rfl
  · have h := (empty_argument_read_path (fun _ => "T") 9 true []
      (⟨some 7, some 3⟩ : ScoreData) "u").2.2.1 7 rfl
    rw [h]
    decide

/-- C8: `load_whitelist` never raises — it is total on every file-system outcome —
and degrades as specified: an absent file is created empty (creation failure only
logs an error and leaves the whitelist as it was, hence empty at startup), a
non-list parse resets the whitelist to empty with a warning, and a read/parse
failure resets it to empty with a logged error. -/
theorem load_whitelist_always_recovers :
    (∀ cur : List String, load_whitelist (.absent true) cur =
      ([], [.info "未找到白名单文件，正在创建...",
            .info "已创建空的 config/whitelist.yaml 文件"])) ∧
    (∀ cur : List String, load_whitelist (.absent false) cur =
      (cur, [.info "未找到白名单文件，正在创建...",
             .error "创建白名单文件失败" false])) ∧
    load_whitelist (.absent false) [] =
      ([], [.info "未找到白名单文件，正在创建...",
            .error "创建白名单文件失败" false]) ∧
    (∀ cur : List String, load_whitelist .unreadable cur =
      ([], [.error "加载白名单文件失败" false])) ∧
    (∀ (cur xs : List String), load_whitelist (.present (.list xs)) cur =
      (xs, [.info ("成功加载 " ++ toString xs.length ++ " 个白名单用户")])) ∧
    (∀ cur : List String, load_whitelist (.present .other) cur =
      ([], [.warning "白名单格式不正确，应为列表。已重置为空列表",
            .info "成功加载 0 个白名单用户"])) :=
  ⟨fun _ => rfl, fun _ => rfl, rfl, fun _ => rfl, fun _ _ => rfl, fun _ => rfl⟩

/-- C9: when persistence fails during an authorized set, the handler converts the
error into the generic failure reply and an error log entry carrying the full
diagnostic flag (`exc_info=True`); totality of `handle_safe` embeds that no
exception escapes the command handler. -/
theorem persist_failure_caught_and_logged (ft : Nat → String) (now : Nat)
    (wl : List String) (d : ScoreData) (u content : String)
    (ha : is_authorized wl u = true) (hc : content ≠ "") (hs : sanitize content ≠ "") :
    (handle_safe ft now false wl d u content).reply =
      "\n⚠️ 更新安全分时发生未知错误，请稍后再试" ∧
    (handle_safe ft now false wl d u content).logs =
      [.info ("Received content for /safe: '" ++ content ++ "'"),
       .info ("Cleaned content: '" ++ sanitize content ++ "'"),
       .error "更新安全分时出错" true] ∧
    LogEntry.error "更新安全分时出错" true ∈ (handle_safe ft now false wl d u content).logs := by
  rw [handle_safe_write ft now false wl d u content hc ha hs, setParsedScore_nonneg]
  simp

theorem persist_failure_caught_and_logged_witness :
    (handle_safe (fun _ => "") 5 false ["admin"] ScoreData.empty "admin" "42").reply =
      "\n⚠️ 更新安全分时发生未知错误，请稍后再试" ∧
    (handle_safe (fun _ => "") 5 false ["admin"] ScoreData.empty "admin" "42").logs =
      [.info ("Received content for /safe: '" ++ "42" ++ "'"),
       .info ("Cleaned content: '" ++ sanitize "42" ++ "'"),
       .error "更新安全分时出错" true] ∧
    LogEntry.error "更新安全分时出错" true ∈
      (handle_safe (fun _ => "") 5 false ["admin"] ScoreData.empty "admin" "42").logs :=
  persist_failure_caught_and_logged (fun _ => "") 5 ["admin"] ScoreData.empty "admin"
    "42" (by decide) (by decide) (by decide)

/-- C10: when persistence fails during an authorized set, the in-memory record has
already been updated to the new score and timestamp and is not rolled back:
despite the error reply, `get_safe_score` and every subsequent empty-argument
read report the new value. -/
theorem persist_failure_leaves_updated_state (ft : Nat → String) (now : Nat)
    (wl : List String) (d : ScoreData) (u content : String) (N : Nat)
    (ha : is_authorized wl u = true) (hc : content ≠ "") (hs : sanitize content ≠ "")
    (hN : pyInt (sanitize content) = some (N : Int)) :
    (handle_safe ft now false wl d u content).state = ⟨some (N : Int), some now⟩ ∧
    get_safe_score (handle_safe ft now false wl d u content).state =
      (some (N : Int), some now) ∧
    (handle_safe ft now false wl d u content).reply =
      "\n⚠️ 更新安全分时发生未知错误，请稍后再试" ∧
    (∀ (ft2 : Nat → String) (now2 : Nat) (p2 : Bool) (wl2 : List String) (u2 : String),
      (handle_safe ft2 now2 p2 wl2
          (handle_safe ft now false wl d u content).state u2 "").reply =
        "\n🛡️ 当前安全分为: `" ++ formatThousands (N : Int) ++ "`\n🕒 最后更新时间: "
          ++ (if now = 0 then "未知" else ft2 now)) := by
  have hdv : ((digitsVal (sanitize content).data : Nat) : Int) = (N : Int) := by
    have h1 := pyInt_sanitize content hs
    rw [hN] at h1
    exact (Option.some_inj.mp h1).symm
  rw [handle_safe_write ft now false wl d u content hc ha hs, hdv, setParsedScore_nonneg]
  refine ⟨rfl, rfl, rfl, ?_⟩
  intro ft2 now2 p2 wl2 u2
  simp [handle_safe]

theorem persist_failure_leaves_updated_state_witness :
    (handle_safe (fun _ => "") 5 false ["admin"] ScoreData.empty "admin" "42").state =
      ⟨some ((42 : Nat) : Int), some 5⟩ ∧
    (handle_safe (fun _ => "T") 0 true []
        (handle_safe (fun _ => "") 5 false ["admin"] ScoreData.empty "admin" "42").state
        "v" "").reply = "\n🛡️ 当前安全分为: `42`\n🕒 最后更新时间: T" := by
  have h := persist_failure_leaves_updated_state (fun _ => "") 5 ["admin"]
    ScoreData.empty "admin" "42" 42 (by decide) (by decide) (by decide) (by decide)
  refine ⟨h.1, ?_⟩
  rw [h.2.2.2 (fun _ => "T") 0 true [] "v"]
  decide

end SafeScore
